import Mathlib

/-!
# Agentic Wallets — verification of the decision/authorization core

Shallow embedding of the decision-and-authorization core of the
Agentic-Wallets repository:

* `LLMDecisionEngine` (source file `LLMDecisionEngine.js`):
  `_validateDecision`, `_doLLMTrade`, `_llmDecide`, `_fallbackDecisionObject`
  and the `decision` event emitted by `tick`.
* `MultiSigManager` / `MultiSigProposal` (source file
  `src/wallet/MultiSigManager.js`): `createTransferProposal`, `coSign`,
  `execute`.

Modelling conventions:

* JS numbers (SOL amounts, balances) are modelled as `ℚ`.  `x.toFixed(6)`
  followed by `parseFloat` is modelled by `round6` (round half-up at six
  decimal places; all rounded quantities in the modelled paths are
  non-negative, where JS `toFixed` rounds ties away from zero, i.e. up).
* Effectful JS methods that mutate `this` are modelled by explicit state
  passing; a JS `throw` is modelled by an `Except`-style error result that
  leaves the state unchanged (as a thrown exception does in the source).
* External collaborators (Solana RPC, `Math.random`, the Anthropic API,
  `WalletManager.signAndSend`) are modelled as explicit parameters: the
  random peer index `rIdx`, the random amount `randAmt`, the API outcome
  `llmResult`, the broadcast signature `sig`.
* JS `Map` objects are modelled by association lists where the newest
  binding shadows older ones (`List.lookup` finds the newest), matching
  `Map.get`/`Map.set` semantics at the keys the code uses.
-/

namespace AgenticWallets

/-- `AGENT_MAX_SOL_PER_TX` from `config.js`: per-transaction spend cap,
default `"0.01"` SOL (no env override in the modelled deployment). -/
def AGENT_MAX_SOL_PER_TX : ℚ := 1/100

/-- The hard balance floor `0.003` SOL used by `tick`, `_validateDecision`
and `_fallbackDecisionObject` in `LLMDecisionEngine.js`. -/
def balanceFloor : ℚ := 3/1000

/-- JS `x || y` on an optional number `x`: `null` and `0` are falsy. -/
def jsOr (x : Option ℚ) (y : ℚ) : ℚ :=
  match x with
  | none => y
  | some v => if v = 0 then y else v

/-- JS truthiness test `if (s)` on an optional string: `null` and `""` are
falsy. -/
def truthyStr (x : Option String) : Option String :=
  match x with
  | none => none
  | some s => if s = "" then none else some s

/-- `parseFloat(x.toFixed(6))`: round to six decimal places, ties up
(JS rounds ties away from zero; every rounded amount in the modelled code
paths is non-negative). -/
def round6 (x : ℚ) : ℚ :=
  (Int.floor (x * 1000000 + 1/2) : ℚ) / 1000000

/-- The decision object produced by the LLM (or by
`_fallbackDecisionObject`): `{ action, reason, tradeTarget, tradeAmount }`.
`action` is the raw string, validated against `AgentState` values by
`_validateDecision`. -/
structure LLMDecision where
  action : String
  reason : String
  tradeTarget : Option String
  tradeAmount : Option ℚ
  deriving Repr, DecidableEq

/-- `Object.values(AgentState)` from `DecisionEngine.js`:
`{IDLE, TRADE, YIELD, REBAL}`. -/
def validActions : List String := ["IDLE", "TRADE", "YIELD", "REBAL"]

/-- `LLMDecisionEngine._validateDecision(decision, balance)`.

Returns the next agent state (a member of `validActions`, as a string)
together with the decision object after the in-place mutation of
`decision.tradeAmount` that the capping branch performs.  The source, in
order: (1) unknown action → `IDLE`; (2) for `TRADE`, if
`balance - (tradeAmount || 0) < 0.003` → `IDLE`; (3) for `TRADE`, if the
amount exceeds `AGENT_MAX_SOL_PER_TX` it is capped in place. -/
def validateDecision (decision : LLMDecision) (balance : ℚ) :
    String × LLMDecision :=
  if ¬ validActions.contains decision.action then
    ("IDLE", decision)
  else if decision.action = "TRADE" then
    let tradeAmt := jsOr decision.tradeAmount 0
    if balance - tradeAmt < balanceFloor then
      ("IDLE", decision)
    else if tradeAmt > AGENT_MAX_SOL_PER_TX then
      (decision.action, { decision with tradeAmount := some AGENT_MAX_SOL_PER_TX })
    else
      (decision.action, decision)
  else
    (decision.action, decision)

/-- `LLMDecisionEngine._doLLMTrade(balance, decision)`.

`peers` is the list of peer agent ids (`this.peers.map(p => p.agentId)`),
`rIdx` stands for `Math.floor(Math.random() * peers.length)` (an arbitrary
natural, reduced mod `peers.length`), and `randAmt` stands for
`Math.random() * AGENT_MAX_SOL_PER_TX`.  Returns `some (target, amount)`
when a trade is submitted to `protocol.executeTrade`, `none` when the
method returns without trading (no peer available, or amount ≤ 1e-6). -/
def doLLMTrade (peers : List String) (balance : ℚ) (decision : LLMDecision)
    (rIdx : ℕ) (randAmt : ℚ) : Option (String × ℚ) :=
  let resolved : Option String :=
    match truthyStr decision.tradeTarget with
    | some t => peers.find? (fun p => p = t)
    | none => none
  let targetPeer : Option String :=
    match resolved with
    | some p => some p
    | none => if peers.length > 0 then peers.get? (rIdx % peers.length) else none
  match targetPeer with
  | none => none
  | some target =>
    let amount :=
      round6 (min (min (jsOr decision.tradeAmount randAmt) AGENT_MAX_SOL_PER_TX)
        (balance * (1/10)))
    if amount ≤ 1/1000000 then none else some (target, amount)

/-- `LLMDecisionEngine._fallbackDecisionObject(balance)` — the rule-based
fallback.  `cycleCount` is `this.cycleCount`, `peers` the peer agent ids,
`rIdx` the random peer index. -/
def fallbackDecisionObject (balance : ℚ) (cycleCount : ℕ)
    (peers : List String) (rIdx : ℕ) : LLMDecision :=
  if balance < balanceFloor then
    { action := "IDLE", reason := "Balance too low",
      tradeTarget := none, tradeAmount := none }
  else if cycleCount % 7 = 0 then
    { action := "YIELD", reason := "Periodic yield cycle",
      tradeTarget := none, tradeAmount := none }
  else if cycleCount % 12 = 0 ∧ peers.length > 0 then
    { action := "REBAL", reason := "Periodic rebalance",
      tradeTarget := none, tradeAmount := none }
  else if peers.length > 0 ∧ balance > 2/100 then
    { action := "TRADE", reason := "Rule-based trade opportunity",
      tradeTarget := peers.get? (rIdx % peers.length),
      tradeAmount := some (AGENT_MAX_SOL_PER_TX * (1/2)) }
  else
    { action := "IDLE", reason := "No opportunity found",
      tradeTarget := none, tradeAmount := none }

/-- `LLMDecisionEngine._llmDecide(snapshot)`.

`apiKey` is `process.env.ANTHROPIC_API_KEY` (`none` when unset),
`llmResult` the outcome of the external API call, `balanceSOL` the
snapshot balance.  With no key, or on any caught error, the method returns
`_fallbackDecisionObject(snapshot.balanceSOL)`; it never re-throws. -/
def llmDecide (apiKey : Option String) (llmResult : Except String LLMDecision)
    (balanceSOL : ℚ) (cycleCount : ℕ) (peers : List String) (rIdx : ℕ) :
    LLMDecision :=
  match apiKey with
  | none => fallbackDecisionObject balanceSOL cycleCount peers rIdx
  | some _ =>
    match llmResult with
    | Except.ok d => d
    | Except.error _ => fallbackDecisionObject balanceSOL cycleCount peers rIdx

/-- The `source` field of the `decision` event emitted by
`LLMDecisionEngine.tick`: `"safety-gate"` on the hard low-balance gate,
otherwise the literal `"llm"` (hard-coded, independent of whether
`_llmDecide` fell back to the rule-based decision). -/
def tickDecisionSource (balance : ℚ) : String :=
  if balance < balanceFloor then "safety-gate" else "llm"

/-!
## MultiSigManager (`src/wallet/MultiSigManager.js`)
-/

/-- `MultiSigProposal`.  `signatures` models the keys of the JS
`Map agentId → signature-blob` in insertion order (the blob values play no
role in any control flow); `requiredSigners` is a JS number, modelled as
`ℤ` since the code never validates it.  `status` is the literal string
field (`"PENDING" | "APPROVED" | "EXECUTED" | "REJECTED"`). -/
structure MultiSigProposal where
  proposalId : String
  proposerAgentId : String
  description : String
  requiredSigners : ℤ
  authorizedSigners : List String
  signatures : List String
  status : String
  executionSignature : Option String
  deriving Repr, DecidableEq, Inhabited

/-- `proposal.signatureCount` getter: `this.signatures.size`. -/
def MultiSigProposal.signatureCount (p : MultiSigProposal) : ℕ :=
  p.signatures.length

/-- `proposal.isApproved` getter:
`this.signatureCount >= this.requiredSigners`. -/
def MultiSigProposal.isApproved (p : MultiSigProposal) : Prop :=
  (p.signatureCount : ℤ) ≥ p.requiredSigners

instance (p : MultiSigProposal) : Decidable p.isApproved := by
  unfold MultiSigProposal.isApproved; infer_instance

/-- `MultiSigManager` state: the `_proposals` map (newest binding first;
`List.lookup` returns the newest, matching `Map.get` after `Map.set`),
plus a ghost counter of `executorWallet.signAndSend` calls used to state
the exactly-once broadcast property. -/
structure MultiSigManager where
  proposals : List (String × MultiSigProposal)
  broadcastCount : ℕ
  deriving Repr, DecidableEq

/-- The fresh manager built by `new MultiSigManager()`. -/
def MultiSigManager.empty : MultiSigManager :=
  { proposals := [], broadcastCount := 0 }

/-- The `throw new Error(...)` sites of `MultiSigManager`, by message. -/
inductive MSError where
  /-- "Proposal ... not found" -/
  | notFound : MSError
  /-- "Proposal ... is STATUS" (coSign on a non-PENDING proposal);
  carries the status string interpolated into the message. -/
  | wrongStatus : String → MSError
  /-- "... is not an authorized signer ..." -/
  | unauthorized : MSError
  /-- "Proposal ... not yet approved (k/M signatures)" -/
  | notApproved : MSError
  /-- "Proposal ... already executed" -/
  | alreadyExecuted : MSError
  deriving Repr, DecidableEq

/-- `MultiSigManager.createTransferProposal(proposerWallet, toAddress,
amountSOL, description, requiredSigners, coSigners)`.

`proposerId` / `coSignerIds` are the wallets' `agentId`s, `proposalId` the
freshly generated `msig-${nanoid(8)}` id.  The transfer transaction itself
(blockhash, `SystemProgram.transfer`) is an external-collaborator value
carried opaquely; `toAddress` and `amountSOL` only feed it, so they do not
appear in the proposal record.  The proposer pre-signs
(`signatures = {proposer}`), the proposal is registered, and **no
validation of `requiredSigners` of any kind is performed**. -/
def createTransferProposal (mgr : MultiSigManager) (proposerId : String)
    (toAddress : String) (amountSOL : ℚ) (description : String)
    (requiredSigners : ℤ) (coSignerIds : List String) (proposalId : String) :
    MultiSigManager × MultiSigProposal :=
  let _ := toAddress
  let _ := amountSOL
  let authorizedIds := proposerId :: coSignerIds
  let proposal : MultiSigProposal :=
    { proposalId := proposalId
      proposerAgentId := proposerId
      description := description
      requiredSigners := requiredSigners
      authorizedSigners := authorizedIds
      signatures := [proposerId]
      status := "PENDING"
      executionSignature := none }
  ({ mgr with proposals := (proposalId, proposal) :: mgr.proposals }, proposal)

/-- `MultiSigManager.coSign(proposalId, signerWallet)`.

Returns the manager state after the call together with the result: a
thrown error leaves the state unchanged; success returns the `approved`
flag of the JS return value `{ proposal, approved }`.  Source order:
not-found check, `status !== "PENDING"` check, authorization check,
already-signed early return (warn, no mutation), then record the
signature and set `status = "APPROVED"` when `isApproved`. -/
def coSign (mgr : MultiSigManager) (proposalId : String) (signerId : String) :
    MultiSigManager × Except MSError Bool :=
  match mgr.proposals.lookup proposalId with
  | none => (mgr, Except.error MSError.notFound)
  | some proposal =>
    if proposal.status ≠ "PENDING" then
      (mgr, Except.error (MSError.wrongStatus proposal.status))
    else if ¬ proposal.authorizedSigners.contains signerId then
      (mgr, Except.error MSError.unauthorized)
    else if proposal.signatures.contains signerId then
      (mgr, Except.ok (decide proposal.isApproved))
    else
      let p1 := { proposal with signatures := proposal.signatures ++ [signerId] }
      let p2 := if p1.isApproved then { p1 with status := "APPROVED" } else p1
      ({ mgr with proposals := (proposalId, p2) :: mgr.proposals },
        Except.ok (decide p2.isApproved))

/-- `MultiSigManager.execute(proposalId, executorWallet)`.

`sig` is the transaction signature returned by the external
`executorWallet.signAndSend` broadcast.  The broadcast happens only on the
success path (every `throw` precedes it), where the ghost
`broadcastCount` is incremented; errors leave the state unchanged. -/
def execute (mgr : MultiSigManager) (proposalId : String) (sig : String) :
    MultiSigManager × Except MSError String :=
  match mgr.proposals.lookup proposalId with
  | none => (mgr, Except.error MSError.notFound)
  | some proposal =>
    if ¬ proposal.isApproved then
      (mgr, Except.error MSError.notApproved)
    else if proposal.status = "EXECUTED" then
      (mgr, Except.error MSError.alreadyExecuted)
    else
      let p2 := { proposal with status := "EXECUTED", executionSignature := some sig }
      ({ proposals := (proposalId, p2) :: mgr.proposals,
         broadcastCount := mgr.broadcastCount + 1 },
        Except.ok sig)

/-!
## Concrete multi-sig scenarios used by witnesses and counterexamples
-/

/-- 2-of-3 proposal: agent-A proposes (and pre-signs), agent-B and agent-C
are co-signers. -/
def m23 : MultiSigManager × MultiSigProposal :=
  createTransferProposal MultiSigManager.empty "agent-A" "DevAddr111"
    (5/100) "treasury transfer" 2 ["agent-B", "agent-C"] "msig-2of3"

/-- The 2-of-3 scenario after agent-B co-signs (threshold reached). -/
def m23afterB : MultiSigManager × Except MSError Bool :=
  coSign m23.1 "msig-2of3" "agent-B"

/-- 2-of-2 proposal: agent-A proposes, agent-B co-signs later. -/
def m22 : MultiSigManager × MultiSigProposal :=
  createTransferProposal MultiSigManager.empty "agent-A" "DevAddr222"
    (1/100) "pair transfer" 2 ["agent-B"] "msig-2of2"

/-- The 2-of-2 scenario after agent-B co-signs (threshold reached). -/
def m22afterB : MultiSigManager × Except MSError Bool :=
  coSign m22.1 "msig-2of2" "agent-B"

/-- 1-of-1 proposal: the proposer's pre-signature alone meets the
threshold. -/
def m11 : MultiSigManager × MultiSigProposal :=
  createTransferProposal MultiSigManager.empty "agent-A" "DevAddr333"
    (5/1000) "solo transfer" 1 [] "msig-1of1"

/-- 3-of-3 proposal with co-signers agent-B and agent-C. -/
def m33 : MultiSigManager × MultiSigProposal :=
  createTransferProposal MultiSigManager.empty "agent-A" "DevAddr444"
    (2/100) "full quorum transfer" 3 ["agent-B", "agent-C"] "msig-3of3"

/-- The 3-of-3 scenario after agent-B co-signs (still below threshold,
status stays PENDING). -/
def m33afterB : MultiSigManager × Except MSError Bool :=
  coSign m33.1 "msig-3of3" "agent-B"

/-- The 1-of-1 scenario after its first (successful) `execute`. -/
def m11exec : MultiSigManager × Except MSError String :=
  execute m11.1 "msig-1of1" "txsig-1"

/-- Proposal created with `requiredSigners = 0` (below 1): the source
registers it without complaint. -/
def m0bad : MultiSigManager × MultiSigProposal :=
  createTransferProposal MultiSigManager.empty "agent-A" "DevAddr555" (1/100)
    "zero threshold" 0 [] "msig-0of1"

/-- Proposal created with `requiredSigners = 5` but a single authorized
signer: the source registers it without complaint. -/
def m5bad : MultiSigManager × MultiSigProposal :=
  createTransferProposal MultiSigManager.empty "agent-A" "DevAddr666" (1/100)
    "oversized threshold" 5 [] "msig-5of1"

/-- Concrete over-cap LLM trade decision used by witnesses. -/
def dOver : LLMDecision :=
  { action := "TRADE", reason := "aggressive trade", tradeTarget := some "agent-B",
    tradeAmount := some (2/100) }

/-- `dOver` after `_validateDecision` caps its amount in place. -/
def dOverClamped : LLMDecision :=
  { dOver with tradeAmount := some AGENT_MAX_SOL_PER_TX }

/-- Over-cap decision (0.012 SOL) whose original amount breaches the
balance floor at balance 0.013 SOL, though the capped amount would not. -/
def dFloorBreach : LLMDecision :=
  { action := "TRADE", reason := "floor breach", tradeTarget := some "agent-B",
    tradeAmount := some (12/1000) }

/-- Trade decision targeting `agent-Z`, a peer id unknown to the agent. -/
def dGhost : LLMDecision :=
  { action := "TRADE", reason := "ghost peer", tradeTarget := some "agent-Z",
    tradeAmount := some (1/200) }

/-!
## Helper lemmas
-/

/-- Rounding at six decimals never pushes an amount past the spend cap,
because the cap (`0.01`) is itself a multiple of `10⁻⁶`. -/
theorem round6_le_cap {x : ℚ} (hx : x ≤ AGENT_MAX_SOL_PER_TX) :
    round6 x ≤ AGENT_MAX_SOL_PER_TX := by
  unfold round6 AGENT_MAX_SOL_PER_TX at *
  rw [div_le_iff₀ (by norm_num : (0:ℚ) < 1000000)]
  have hfl : Int.floor (x * 1000000 + 1/2) ≤ (10000 : ℤ) := by
    have h1 : Int.floor (x * 1000000 + 1/2) ≤ Int.floor ((10000 : ℚ) + 1/2) :=
      Int.floor_mono (by linarith)
    have h2 : Int.floor ((10000 : ℚ) + 1/2) = 10000 := by
      rw [Int.floor_eq_iff]
      norm_num
    exact h1.trans_eq h2
  have : (Int.floor (x * 1000000 + 1/2) : ℚ) ≤ (10000 : ℚ) := by exact_mod_cast hfl
  linarith

/-- Any amount `_doLLMTrade` actually submits is at most the spend cap:
it is the six-decimal rounding of a `min` whose middle argument is the
cap. -/
theorem doLLMTrade_amount_le_cap (peers : List String) (balance : ℚ)
    (d : LLMDecision) (rIdx : ℕ) (randAmt : ℚ) (t : String) (amt : ℚ)
    (h : doLLMTrade peers balance d rIdx randAmt = some (t, amt)) :
    amt ≤ AGENT_MAX_SOL_PER_TX := by
  simp only [doLLMTrade] at h
  split at h
  · exact absurd h (by simp)
  · split at h
    · exact absurd h (by simp)
    · simp only [Option.some.injEq, Prod.mk.injEq] at h
      obtain ⟨-, ha⟩ := h
      rw [← ha]
      exact round6_le_cap (le_trans (min_le_left _ _) (min_le_right _ _))

/-- A decision that survives `_validateDecision` as a `TRADE` carries a
(possibly capped) amount of at most the spend cap. -/
theorem validateDecision_trade_amount_le (d : LLMDecision) (balance : ℚ)
    (d' : LLMDecision) (h : validateDecision d balance = ("TRADE", d')) :
    jsOr d'.tradeAmount 0 ≤ AGENT_MAX_SOL_PER_TX := by
  simp only [validateDecision] at h
  split at h
  · exact absurd h (by simp)
  · split at h
    · split at h
      · exact absurd h (by simp)
      · split at h
        · simp only [Prod.mk.injEq] at h
          obtain ⟨-, hd⟩ := h
          rw [← hd]
          simp only [jsOr]
          norm_num [AGENT_MAX_SOL_PER_TX]
        · rename_i hover
          simp only [Prod.mk.injEq] at h
          obtain ⟨-, hd⟩ := h
          rw [← hd]
          exact not_lt.mp hover
    · rename_i hact
      simp only [Prod.mk.injEq] at h
      exact absurd h.1 hact

/-- Evaluation rule for `round6` at concrete arguments (the Mathlib in use
has no `norm_num` extension for `Int.floor`). -/
theorem round6_eval {x : ℚ} {n : ℤ} (h1 : (n:ℚ) ≤ x * 1000000 + 1/2)
    (h2 : x * 1000000 + 1/2 < n + 1) : round6 x = (n : ℚ) / 1000000 := by
  unfold round6
  rw [Int.floor_eq_iff.mpr ⟨h1, h2⟩]

/-!
## Claims
-/

/-- C1: every decision surviving validation with action TRADE carries an
amount of at most `maxTradePerTx` (`AGENT_MAX_SOL_PER_TX`): the validator
caps an over-limit amount at the cap, and the amount `_doLLMTrade`
actually submits to the protocol never exceeds the cap — for an arbitrary
decision object, hence regardless of whether it came from the LLM or from
the rule-based fallback. -/
theorem validated_trade_spend_cap (d : LLMDecision) (balance : ℚ)
    (d' : LLMDecision) (peers : List String) (rIdx : ℕ) (randAmt : ℚ)
    (t : String) (amt : ℚ)
    (hval : validateDecision d balance = ("TRADE", d'))
    (hexec : doLLMTrade peers balance d' rIdx randAmt = some (t, amt)) :
    jsOr d'.tradeAmount 0 ≤ AGENT_MAX_SOL_PER_TX ∧ amt ≤ AGENT_MAX_SOL_PER_TX :=
  ⟨validateDecision_trade_amount_le d balance d' hval,
   doLLMTrade_amount_le_cap peers balance d' rIdx randAmt t amt hexec⟩

/-- Witness for C1: the over-cap decision `dOver` (0.02 SOL) at balance 1
SOL is validated to a TRADE capped at 0.01 SOL and executed at 0.01 SOL. -/
theorem validated_trade_spend_cap_witness :
    validateDecision dOver 1 = ("TRADE", dOverClamped) ∧
    doLLMTrade ["agent-B"] 1 dOverClamped 0 0 = some ("agent-B", 1/100) ∧
    (jsOr dOverClamped.tradeAmount 0 ≤ AGENT_MAX_SOL_PER_TX ∧
      (1/100 : ℚ) ≤ AGENT_MAX_SOL_PER_TX) := by
  have hval : validateDecision dOver 1 = ("TRADE", dOverClamped) := by
    simp [validateDecision, dOver, dOverClamped, validActions, jsOr,
      AGENT_MAX_SOL_PER_TX, balanceFloor]
    norm_num
  have hexec : doLLMTrade ["agent-B"] 1 dOverClamped 0 0 = some ("agent-B", 1/100) := by
    rw [show doLLMTrade ["agent-B"] 1 dOverClamped 0 0 =
        (if round6 (min (min (jsOr dOverClamped.tradeAmount 0) AGENT_MAX_SOL_PER_TX)
            (1 * (1/10))) ≤ 1/1000000 then none
         else some ("agent-B", round6 (min (min (jsOr dOverClamped.tradeAmount 0)
            AGENT_MAX_SOL_PER_TX) (1 * (1/10))))) from rfl]
    have hX : min (min (jsOr dOverClamped.tradeAmount 0) AGENT_MAX_SOL_PER_TX)
        ((1:ℚ) * (1/10)) = 1/100 := by
      simp [jsOr, dOverClamped, dOver, AGENT_MAX_SOL_PER_TX]
      norm_num
    rw [hX, round6_eval (n := 10000) (by norm_num) (by norm_num)]
    norm_num
  exact ⟨hval, hexec,
    validated_trade_spend_cap dOver 1 dOverClamped ["agent-B"] 0 0 "agent-B"
      (1/100) hval hexec⟩

/-- C2: after a successful `execute` of a proposal, any further `execute`
call on the same `proposalId` fails with the "already executed" error and
returns the state unchanged — in particular the ghost `broadcastCount` is
not incremented again, so the first successful `execute` performed the
only broadcast. -/
theorem execute_exactly_once (mgr mgr' : MultiSigManager) (pid sig1 sig2 s : String)
    (h : execute mgr pid sig1 = (mgr', Except.ok s)) :
    execute mgr' pid sig2 = (mgr', Except.error MSError.alreadyExecuted) := by
  simp only [execute] at h
  split at h
  · exact absurd h (by simp)
  · rename_i p hlk
    split at h
    · exact absurd h (by simp)
    · split at h
      · exact absurd h (by simp)
      · rename_i happ hnotex
        simp only [Prod.mk.injEq] at h
        obtain ⟨hm, -⟩ := h
        rw [← hm]
        have hap : p.isApproved := not_not.mp happ
        have hlk2 : List.lookup pid
            ((pid, { p with status := "EXECUTED", executionSignature := some sig1 })
              :: mgr.proposals) =
            some { p with status := "EXECUTED", executionSignature := some sig1 } := by
          simp [List.lookup]
        simp only [execute, hlk2]
        rw [if_neg (not_not_intro (show MultiSigProposal.isApproved
          { p with status := "EXECUTED", executionSignature := some sig1 } from hap))]
        simp

/-- Witness for C2: executing the 1-of-1 proposal succeeds once; the
second `execute` fails with the already-executed error and changes
nothing. -/
theorem execute_exactly_once_witness :
    execute m11.1 "msig-1of1" "txsig-1" = (m11exec.1, Except.ok "txsig-1") ∧
    execute m11exec.1 "msig-1of1" "txsig-2" =
      (m11exec.1, Except.error MSError.alreadyExecuted) := by
  have h1 : execute m11.1 "msig-1of1" "txsig-1" = (m11exec.1, Except.ok "txsig-1") := rfl
  exact ⟨h1, execute_exactly_once m11.1 m11exec.1 "msig-1of1" "txsig-1" "txsig-2"
    "txsig-1" h1⟩

/-- C10: `execute` gates approval on the signature count
(`isApproved`), not on the `status` field: whenever the recorded
signature count meets `requiredSigners` and the status is not
`EXECUTED`, `execute` succeeds and broadcasts — even if the status is
still `PENDING`. -/
theorem execute_gates_on_count (mgr : MultiSigManager) (pid sig : String)
    (p : MultiSigProposal) (hlk : mgr.proposals.lookup pid = some p)
    (happ : (p.signatureCount : ℤ) ≥ p.requiredSigners)
    (hst : p.status ≠ "EXECUTED") :
    execute mgr pid sig =
      ({ proposals :=
          (pid, { p with status := "EXECUTED", executionSignature := some sig }) ::
            mgr.proposals,
         broadcastCount := mgr.broadcastCount + 1 }, Except.ok sig) := by
  simp only [execute, hlk]
  rw [if_neg (not_not_intro (show p.isApproved from happ))]
  rw [if_neg hst]

/-- Witness for C10: the freshly created 1-of-1 proposal has status
`PENDING`, yet `execute` succeeds immediately (no `coSign` call ever
happened), broadcasting exactly once. -/
theorem execute_gates_on_count_witness :
    m11.2.status = "PENDING" ∧
    execute m11.1 "msig-1of1" "txsig-1" =
      ({ proposals :=
          ("msig-1of1",
            { m11.2 with status := "EXECUTED", executionSignature := some "txsig-1" }) ::
            m11.1.proposals,
         broadcastCount := m11.1.broadcastCount + 1 }, Except.ok "txsig-1") :=
  ⟨rfl, execute_gates_on_count m11.1 "msig-1of1" "txsig-1" m11.2 rfl
    (by decide) (by decide)⟩

/-- C3 counterexample: the 1-of-1 proposal `m11` has its proposer's
signature recorded at creation (count = 1 = requiredSigners), yet its
status is `PENDING`, not `APPROVED` — creation never performs the
approval transition, refuting the claim's "as soon as that first
signature is recorded". -/
theorem approval_at_creation_cex :
    m11.2.requiredSigners = 1 ∧ m11.2.signatureCount = 1 ∧
    m11.1.proposals.lookup "msig-1of1" = some m11.2 ∧
    m11.2.status = "PENDING" ∧ m11.2.status ≠ "APPROVED" :=
  ⟨rfl, rfl, rfl, rfl, by decide⟩

/-- C3 (amended): the `PENDING → APPROVED` transition happens only inside
`coSign`: when a coSign records a new signature from an authorized signer
on a `PENDING` proposal, the stored proposal's status becomes `APPROVED`
exactly when the resulting signature count meets `requiredSigners`, and
stays `PENDING` otherwise; creation itself never sets `APPROVED` (see the
counterexample), so a 1-of-N proposal stays `PENDING` after creation. -/
theorem approval_transition_via_cosign (mgr : MultiSigManager) (pid s : String)
    (p : MultiSigProposal) (hlk : mgr.proposals.lookup pid = some p)
    (hst : p.status = "PENDING") (hauth : s ∈ p.authorizedSigners)
    (hnew : s ∉ p.signatures) :
    coSign mgr pid s =
      ({ mgr with proposals := (pid, { p with signatures := p.signatures ++ [s], status := if (p.signatures.length + 1 : ℤ) ≥ p.requiredSigners then "APPROVED" else "PENDING" }) :: mgr.proposals },
        Except.ok (decide ((p.signatures.length + 1 : ℤ) ≥ p.requiredSigners))) := by
  simp only [coSign, hlk]
  rw [if_neg (by simp [hst]), if_neg (by simp [hauth]), if_neg (by simp [hnew])]
  by_cases hA : (p.signatures.length + 1 : ℤ) ≥ p.requiredSigners
  · simp [MultiSigProposal.isApproved, MultiSigProposal.signatureCount,
      List.length_append, hA, hst]
  · simp [MultiSigProposal.isApproved, MultiSigProposal.signatureCount,
      List.length_append, hA, hst]

/-- Witness for C3 (amended): agent-B's coSign on the 2-of-3 proposal
records the second signature and flips the status to `APPROVED`. -/
theorem approval_transition_via_cosign_witness :
    coSign m23.1 "msig-2of3" "agent-B" =
      ({ m23.1 with proposals := ("msig-2of3", { m23.2 with signatures := m23.2.signatures ++ ["agent-B"], status := "APPROVED" }) :: m23.1.proposals },
        Except.ok true) :=
  approval_transition_via_cosign m23.1 "msig-2of3" "agent-B" m23.2 rfl rfl
    (by decide) (by decide)

/-- C5 counterexample: `createTransferProposal` registers proposals with
`requiredSigners = 0` (< 1) and with `requiredSigners = 5` against a
single authorized signer; no error of any kind is raised (the function
returns normally and the registry holds the proposal), refuting
"fails with InvalidThresholdError ... no proposal is registered". -/
theorem threshold_validation_cex :
    m0bad.2.requiredSigners = 0 ∧ m0bad.2.requiredSigners < 1 ∧
    m0bad.1.proposals.lookup "msig-0of1" = some m0bad.2 ∧
    m5bad.2.requiredSigners = 5 ∧
    (m5bad.2.authorizedSigners.length : ℤ) < m5bad.2.requiredSigners ∧
    m5bad.1.proposals.lookup "msig-5of1" = some m5bad.2 :=
  ⟨rfl, by decide, rfl, rfl, by decide, rfl⟩

/-- C5 (amended): `createTransferProposal` performs no threshold
validation at all: for every `requiredSigners` value (including values
below 1 or above the authorized-signer count) it registers the proposal,
which starts `PENDING` with the requested threshold stored verbatim. -/
theorem createProposal_no_threshold_validation (mgr : MultiSigManager)
    (proposerId toAddress : String) (amountSOL : ℚ) (description : String)
    (requiredSigners : ℤ) (coSignerIds : List String) (proposalId : String) :
    (createTransferProposal mgr proposerId toAddress amountSOL description requiredSigners coSignerIds proposalId).1.proposals.lookup proposalId =
      some (createTransferProposal mgr proposerId toAddress amountSOL description requiredSigners coSignerIds proposalId).2 ∧
    (createTransferProposal mgr proposerId toAddress amountSOL description requiredSigners coSignerIds proposalId).2.requiredSigners = requiredSigners ∧
    (createTransferProposal mgr proposerId toAddress amountSOL description requiredSigners coSignerIds proposalId).2.status = "PENDING" := by
  refine ⟨?_, rfl, rfl⟩
  simp [createTransferProposal, List.lookup]

/-- C6 counterexample: in the 2-of-3 scenario, after agent-B's coSign
approved the proposal (count = 2, status `APPROVED`), the authorized
third signer agent-C's coSign raises ("Proposal ... is APPROVED") and
records nothing: the count stays 2, refuting "succeeds ... records a
third signature (count=3)". -/
theorem third_cosign_cex :
    m23afterB.2 = Except.ok true ∧
    (m23afterB.1.proposals.lookup "msig-2of3").map MultiSigProposal.status = some "APPROVED" ∧
    ("agent-C" ∈ ((m23afterB.1.proposals.lookup "msig-2of3").getD default).authorizedSigners) ∧
    coSign m23afterB.1 "msig-2of3" "agent-C" =
      (m23afterB.1, Except.error (MSError.wrongStatus "APPROVED")) ∧
    (m23afterB.1.proposals.lookup "msig-2of3").map MultiSigProposal.signatureCount = some 2 :=
  ⟨rfl, rfl, by decide, rfl, rfl⟩

/-- C6 (amended): `coSign` rejects any proposal whose status is not
`PENDING` with an error carrying that status, leaving the state
unchanged; hence once a 2-of-3 proposal is `APPROVED`, the third signer's
coSign fails and the signature count stays 2. -/
theorem cosign_rejects_non_pending (mgr : MultiSigManager) (pid s : String)
    (p : MultiSigProposal) (hlk : mgr.proposals.lookup pid = some p)
    (hst : p.status ≠ "PENDING") :
    coSign mgr pid s = (mgr, Except.error (MSError.wrongStatus p.status)) := by
  simp only [coSign, hlk]
  rw [if_pos hst]

/-- Witness for C6 (amended): agent-C's coSign on the approved 2-of-3
proposal fails with the wrong-status error and leaves the state as is. -/
theorem cosign_rejects_non_pending_witness :
    coSign m23afterB.1 "msig-2of3" "agent-C" =
      (m23afterB.1, Except.error (MSError.wrongStatus "APPROVED")) :=
  cosign_rejects_non_pending m23afterB.1 "msig-2of3" "agent-C"
    ((m23afterB.1.proposals.lookup "msig-2of3").getD default) rfl (by decide)

/-- C9 counterexample: in the 2-of-2 scenario, agent-B (authorized, has
already signed, proposal now `APPROVED`) raises on a repeated coSign
instead of returning the approval status, refuting "for every proposal
... does not raise". -/
theorem cosign_idempotence_cex :
    ("agent-B" ∈ m22.2.authorizedSigners) ∧
    m22afterB.2 = Except.ok true ∧
    ("agent-B" ∈ ((m22afterB.1.proposals.lookup "msig-2of2").getD default).signatures) ∧
    coSign m22afterB.1 "msig-2of2" "agent-B" =
      (m22afterB.1, Except.error (MSError.wrongStatus "APPROVED")) :=
  ⟨by decide, rfl, by decide, rfl⟩

/-- C9 (amended): coSign is idempotent per signer **on `PENDING`
proposals**: a repeated coSign by an authorized signer who already signed
returns the current approval status without raising and leaves the
manager (hence `signatures.size` and `status`) unchanged.  On a
non-`PENDING` proposal the repeated call instead fails the status check
(see the counterexample). -/
theorem cosign_idempotent_pending (mgr : MultiSigManager) (pid s : String)
    (p : MultiSigProposal) (hlk : mgr.proposals.lookup pid = some p)
    (hst : p.status = "PENDING") (hauth : s ∈ p.authorizedSigners)
    (hsig : s ∈ p.signatures) :
    coSign mgr pid s = (mgr, Except.ok (decide p.isApproved)) := by
  simp only [coSign, hlk]
  rw [if_neg (by simp [hst]), if_neg (by simp [hauth]), if_pos (by simp [hsig])]

/-- Witness for C9 (amended): agent-B re-signs the still-`PENDING` 3-of-3
proposal; the call returns `ok false` (not yet approved) and changes
nothing. -/
theorem cosign_idempotent_pending_witness :
    coSign m33afterB.1 "msig-3of3" "agent-B" = (m33afterB.1, Except.ok false) :=
  cosign_idempotent_pending m33afterB.1 "msig-3of3" "agent-B"
    ((m33afterB.1.proposals.lookup "msig-3of3").getD default) rfl rfl (by decide) (by decide)

/-- C4 counterexample: at balance 0.013 SOL, a TRADE of 0.012 SOL (over
the 0.01 cap) is replaced with IDLE, although
`balance - maxTradePerTx = 0.003 ≥ balanceFloor`: the code applies the
balance-floor check to the original amount before clamping, refuting
"survives as a (clamped) TRADE". -/
theorem clamp_order_cex :
    validateDecision dFloorBreach (13/1000) = ("IDLE", dFloorBreach) ∧
    (13/1000 : ℚ) - AGENT_MAX_SOL_PER_TX ≥ balanceFloor ∧
    jsOr dFloorBreach.tradeAmount 0 > AGENT_MAX_SOL_PER_TX ∧
    (13/1000 : ℚ) - jsOr dFloorBreach.tradeAmount 0 < balanceFloor := by
  refine ⟨?_, by norm_num [AGENT_MAX_SOL_PER_TX, balanceFloor],
    by norm_num [jsOr, dFloorBreach, AGENT_MAX_SOL_PER_TX],
    by norm_num [jsOr, dFloorBreach, balanceFloor]⟩
  simp [validateDecision, dFloorBreach, validActions, jsOr,
    AGENT_MAX_SOL_PER_TX, balanceFloor]
  norm_num

/-- C4 (amended): `_validateDecision` applies the balance-floor check to
the **original** (unclamped) amount first and only afterwards clamps:
every TRADE whose original `tradeAmount` leaves less than the floor is
replaced with IDLE, even when the clamped amount would have satisfied the
floor. -/
theorem floor_check_precedes_clamp (d : LLMDecision) (balance : ℚ)
    (hact : d.action = "TRADE")
    (hfloor : balance - jsOr d.tradeAmount 0 < balanceFloor) :
    validateDecision d balance = ("IDLE", d) := by
  have hc : d.action ∈ validActions := by rw [hact]; decide
  simp only [validateDecision]
  rw [if_neg (by simp [hc]), if_pos hact, if_pos hfloor]

/-- Witness for C4 (amended): the 0.012-SOL trade at balance 0.013 SOL is
downgraded to IDLE by the floor check on the original amount. -/
theorem floor_check_precedes_clamp_witness :
    validateDecision dFloorBreach (13/1000) = ("IDLE", dFloorBreach) :=
  floor_check_precedes_clamp dFloorBreach (13/1000) rfl
    (by norm_num [jsOr, dFloorBreach, balanceFloor])

/-- C7 counterexample: when the API key is set and the inference call
fails, the decision used is the rule-based fallback, but the `decision`
event emitted by `tick` carries `source = "llm"`, not `"rule"`, refuting
the claim's `source="rule"`. -/
theorem fallback_source_cex :
    llmDecide (some "sk-ant-key") (Except.error "timeout") (1/100) 3 ["agent-B"] 0 =
      fallbackDecisionObject (1/100) 3 ["agent-B"] 0 ∧
    tickDecisionSource (1/100) = "llm" ∧
    "llm" ≠ "rule" := by
  refine ⟨rfl, ?_, by decide⟩
  norm_num [tickDecisionSource, balanceFloor]

/-- C7 (amended): when the inference call fails (here: any caught error,
e.g. a timeout) the cycle uses the rule-based fallback decision computed
from the same snapshot and never raises to the caller, but the emitted
decision event records `source = "llm"` for every non-safety-gate cycle
— fallback use is observable only via the warning log and the
`llmFails` counter, not via the event's source tag. -/
theorem llm_failure_fallback (key e : String) (balanceSOL balance : ℚ)
    (cycleCount : ℕ) (peers : List String) (rIdx : ℕ)
    (h : ¬ balance < balanceFloor) :
    llmDecide (some key) (Except.error e) balanceSOL cycleCount peers rIdx =
      fallbackDecisionObject balanceSOL cycleCount peers rIdx ∧
    tickDecisionSource balance = "llm" :=
  ⟨rfl, by simp [tickDecisionSource, h]⟩

/-- Witness for C7 (amended): a timed-out inference call at balance 0.01
SOL, cycle 3, yields the fallback decision and an event source `"llm"`. -/
theorem llm_failure_fallback_witness :
    llmDecide (some "sk-ant-key") (Except.error "timeout") (1/100) 3 ["agent-B"] 0 =
      fallbackDecisionObject (1/100) 3 ["agent-B"] 0 ∧
    tickDecisionSource (1/100) = "llm" :=
  llm_failure_fallback "sk-ant-key" "timeout" (1/100) (1/100) 3 ["agent-B"] 0
    (by norm_num [balanceFloor])

/-- C8 counterexample: a TRADE whose target `agent-Z` is not among the
known peers survives validation as TRADE (the validator never inspects
the target), and `_doLLMTrade` executes the trade against the randomly
chosen known peer `agent-B` — a trade **is** executed, refuting
"validation replaces the decision with IDLE (no trade is executed)". -/
theorem unresolvable_target_cex :
    (validateDecision dGhost 1).1 = "TRADE" ∧
    ("agent-Z" ∉ ["agent-B"]) ∧
    doLLMTrade ["agent-B"] 1 dGhost 0 0 = some ("agent-B", 1/200) := by
  refine ⟨?_, by decide, ?_⟩
  · simp [validateDecision, dGhost, validActions, jsOr,
      AGENT_MAX_SOL_PER_TX, balanceFloor]
    norm_num
  · rw [show doLLMTrade ["agent-B"] 1 dGhost 0 0 =
        (if round6 (min (min (jsOr dGhost.tradeAmount 0) AGENT_MAX_SOL_PER_TX)
            (1 * (1/10))) ≤ 1/1000000 then none
         else some ("agent-B", round6 (min (min (jsOr dGhost.tradeAmount 0)
            AGENT_MAX_SOL_PER_TX) (1 * (1/10))))) from rfl]
    have hX : min (min (jsOr dGhost.tradeAmount 0) AGENT_MAX_SOL_PER_TX)
        ((1:ℚ) * (1/10)) = 1/200 := by
      simp [jsOr, dGhost, AGENT_MAX_SOL_PER_TX]
      norm_num
    rw [hX, round6_eval (n := 5000) (by norm_num) (by norm_num)]
    norm_num

/-- C8 (amended): the validator does not examine the trade target; when
the target is unresolvable `_doLLMTrade` redirects to a randomly chosen
known peer, so every trade it actually executes targets a member of the
peer list (and with no peers at all, no trade happens). -/
theorem executed_trade_targets_known_peer (peers : List String) (balance : ℚ)
    (d : LLMDecision) (rIdx : ℕ) (randAmt : ℚ) (t : String) (amt : ℚ)
    (h : doLLMTrade peers balance d rIdx randAmt = some (t, amt)) :
    t ∈ peers := by
  simp only [doLLMTrade] at h
  split at h
  · exact absurd h (by simp)
  · rename_i target htp
    split at h
    · exact absurd h (by simp)
    · simp only [Option.some.injEq, Prod.mk.injEq] at h
      obtain ⟨ht, -⟩ := h
      rw [← ht]
      split at htp
      · rename_i p hfind
        injection htp with hpt
        subst hpt
        split at hfind
        · exact List.mem_of_find?_eq_some hfind
        · exact absurd hfind (by simp)
      · rename_i hres
        split at htp
        · exact List.get?_mem htp
        · exact absurd htp (by simp)

/-- Witness for C8 (amended): the ghost-targeted trade executes against
`agent-B`, which is a known peer. -/
theorem executed_trade_targets_known_peer_witness :
    doLLMTrade ["agent-B"] 1 dGhost 0 0 = some ("agent-B", 1/200) ∧
    "agent-B" ∈ ["agent-B"] := by
  have hexec : doLLMTrade ["agent-B"] 1 dGhost 0 0 = some ("agent-B", 1/200) := by
    rw [show doLLMTrade ["agent-B"] 1 dGhost 0 0 =
        (if round6 (min (min (jsOr dGhost.tradeAmount 0) AGENT_MAX_SOL_PER_TX)
            (1 * (1/10))) ≤ 1/1000000 then none
         else some ("agent-B", round6 (min (min (jsOr dGhost.tradeAmount 0)
            AGENT_MAX_SOL_PER_TX) (1 * (1/10))))) from rfl]
    have hX : min (min (jsOr dGhost.tradeAmount 0) AGENT_MAX_SOL_PER_TX)
        ((1:ℚ) * (1/10)) = 1/200 := by
      simp [jsOr, dGhost, AGENT_MAX_SOL_PER_TX]
      norm_num
    rw [hX, round6_eval (n := 5000) (by norm_num) (by norm_num)]
    norm_num
  exact ⟨hexec, executed_trade_targets_known_peer ["agent-B"] 1 dGhost 0 0
    "agent-B" (1/200) hexec⟩

end AgenticWallets


